import Mathlib

/-!
Verification development for the python sidecar in `src/python-sidecar/main.py`:
a shallow embedding of its SSE response parser, session initializer, subprocess
supervisor and MCP tool bridge, together with theorems about the spec's claims.

Modelling conventions:
* Python values that can appear in parsed JSON / returned payload dicts are
  modelled by the inductive type `Json` below.  JSON numbers are modelled
  exactly as `mantissa * 10 ^ exp10` (Python's int/float distinction is not
  observable by any claim).
* Fallible Python code is modelled with `Option`: an exception that the source
  catches and converts to a sentinel is modelled by `none` at the point where
  the source catches it.
* Network I/O is modelled by passing the outcome of each outbound HTTP request
  (`HttpOutcome`) as an explicit argument, and by returning the list of
  outbound requests that the code attempted (`NetReq`).
-/

namespace Sidecar

/-- Model of a Python value produced by `json.loads` (None, bool, int/float,
str, list, dict).  A number denotes `mantissa * 10 ^ exp10`; dicts are
association lists in insertion order, with unique keys. -/
inductive Json where
  | null : Json
  | bool (b : Bool) : Json
  | num (mantissa : Int) (exp10 : Int) : Json
  | str (s : String) : Json
  | arr (elems : List Json) : Json
  | obj (fields : List (String × Json)) : Json

/-- JSON whitespace as accepted by Python's `json` module: space, tab,
newline, carriage return. -/
def isJsonWs (c : Char) : Bool :=
  c == ' ' || c == '\t' || c == '\n' || c == '\x0d'

/-- Drop leading JSON whitespace. -/
def skipJWs (l : List Char) : List Char :=
  l.dropWhile isJsonWs

/-- Value of a hexadecimal digit, as used for `\uXXXX` string escapes. -/
def hexVal (c : Char) : Option Nat :=
  if '0' ≤ c && c ≤ '9' then some (c.toNat - 48)
  else if 'a' ≤ c && c ≤ 'f' then some (c.toNat - 87)
  else if 'A' ≤ c && c ≤ 'F' then some (c.toNat - 55)
  else none

/-- Body of the JSON string scanner (after the opening quote), accumulating
characters in reverse, fuelled so the recursion is structural (every step
consumes at least one character, so fuel `length + 1` never runs out).  Mirrors Python's strict `json` scanner: the standard
escapes, `\uXXXX` escapes with surrogate-pair combination, and a hard error on
unescaped control characters below U+0020.  Lone surrogates, which Python keeps
in its `str` but which Lean's `Char` cannot represent, are modelled as U+FFFD
(they are unobservable by every claim). -/
def parseStrAux : Nat → List Char → List Char → Option (String × List Char)
  | 0, _, _ => none
  | Nat.succ _, [], _ => none
  | Nat.succ _, '"' :: rest, acc => some (String.mk acc.reverse, rest)
  | Nat.succ fuel, '\\' :: rest, acc =>
    match rest with
    | '"' :: r => parseStrAux fuel r ('"' :: acc)
    | '\\' :: r => parseStrAux fuel r ('\\' :: acc)
    | '/' :: r => parseStrAux fuel r ('/' :: acc)
    | 'b' :: r => parseStrAux fuel r ('\x08' :: acc)
    | 'f' :: r => parseStrAux fuel r ('\x0c' :: acc)
    | 'n' :: r => parseStrAux fuel r ('\n' :: acc)
    | 'r' :: r => parseStrAux fuel r ('\x0d' :: acc)
    | 't' :: r => parseStrAux fuel r ('\t' :: acc)
    | 'u' :: h1 :: h2 :: h3 :: h4 :: r =>
      match hexVal h1, hexVal h2, hexVal h3, hexVal h4 with
      | some a, some b, some c, some d =>
        let v := ((a * 16 + b) * 16 + c) * 16 + d
        if 55296 ≤ v && v ≤ 56319 then
          match r with
          | '\\' :: 'u' :: g1 :: g2 :: g3 :: g4 :: r2 =>
            match hexVal g1, hexVal g2, hexVal g3, hexVal g4 with
            | some a2, some b2, some c2, some d2 =>
              let w := ((a2 * 16 + b2) * 16 + c2) * 16 + d2
              if 56320 ≤ w && w ≤ 57343 then
                parseStrAux fuel r2
                  (Char.ofNat (65536 + (v - 55296) * 1024 + (w - 56320)) :: acc)
              else parseStrAux fuel r (Char.ofNat 65533 :: acc)
            | _, _, _, _ => parseStrAux fuel r (Char.ofNat 65533 :: acc)
          | _ => parseStrAux fuel r (Char.ofNat 65533 :: acc)
        else if 56320 ≤ v && v ≤ 57343 then
          parseStrAux fuel r (Char.ofNat 65533 :: acc)
        else parseStrAux fuel r (Char.ofNat v :: acc)
      | _, _, _, _ => none
    | _ => none
  | Nat.succ fuel, c :: rest, acc =>
    if c.toNat < 32 then none else parseStrAux fuel rest (c :: acc)

/-- Scan a JSON string literal, starting just after the opening quote. -/
def parseStr (l : List Char) : Option (String × List Char) :=
  parseStrAux (l.length + 1) l []

/-- Numeric value of a list of decimal digits. -/
def digitsToNat (ds : List Char) : Nat :=
  ds.foldl (fun a c => a * 10 + (c.toNat - 48)) 0

/-- Scan the tail of an exponent part (`[eE]` already seen).  If no digits
follow the optional sign the exponent group does not match and the number
token ends before `orig`, exactly as Python's number regex behaves. -/
def parseExpTail (orig : List Char) (r : List Char) : Int × List Char :=
  let (esign, r2) :=
    match r with
    | '+' :: t => ((1 : Int), t)
    | '-' :: t => ((-1 : Int), t)
    | _ => ((1 : Int), r)
  let eds := r2.takeWhile Char.isDigit
  if eds.isEmpty then (0, orig)
  else (esign * Int.ofNat (digitsToNat eds), r2.dropWhile Char.isDigit)

/-- Scan an optional exponent part of a JSON number. -/
def parseExp (l : List Char) : Int × List Char :=
  match l with
  | 'e' :: r => parseExpTail l r
  | 'E' :: r => parseExpTail l r
  | _ => ((0 : Int), l)

/-- Scan a JSON number token, following Python's `json` number grammar
`(-?(0|[1-9][0-9]*))(\.[0-9]+)?([eE][+-]?[0-9]+)?`: a leading zero ends the
integer part, a dot or exponent marker without digits is not consumed. -/
def parseNum (l : List Char) : Option (Json × List Char) :=
  let (neg, l1) :=
    match l with
    | '-' :: r => (true, r)
    | _ => (false, l)
  match l1 with
  | [] => none
  | c :: _ =>
    if !c.isDigit then none
    else
      let (ids, l2) :=
        if c == '0' then (['0'], l1.drop 1)
        else (l1.takeWhile Char.isDigit, l1.dropWhile Char.isDigit)
      let (fds, l3) :=
        match l2 with
        | '.' :: r =>
          let f := r.takeWhile Char.isDigit
          if f.isEmpty then (([] : List Char), l2) else (f, r.dropWhile Char.isDigit)
        | _ => (([] : List Char), l2)
      let (expv, l4) := parseExp l3
      let mant : Int := Int.ofNat (digitsToNat (ids ++ fds))
      some (Json.num (if neg then -mant else mant) (expv - Int.ofNat fds.length), l4)

/-- Insert a key into a dict association list with Python `dict` semantics:
replace the value in place if the key exists, append otherwise. -/
def dictInsert (acc : List (String × Json)) (k : String) (v : Json) :
    List (String × Json) :=
  match acc with
  | [] => [(k, v)]
  | (k2, v2) :: rest =>
    if k2 == k then (k2, v) :: rest else (k2, v2) :: dictInsert rest k v

/-- Parser mode: a whole value, the inside of an object (at `}` or first key),
the member loop, the inside of an array, the element loop. -/
inductive PMode where
  | pv : PMode
  | pobjStart : PMode
  | pmem (acc : List (String × Json)) : PMode
  | parrStart : PMode
  | pelem (acc : List Json) : PMode

/-- Recursive-descent JSON scanner, fuelled to make the recursion structural.
Each level of nesting consumes at least one character, so fuel `length + 1`
(as supplied by `json_loads`) never runs out on any input. -/
def parseF : Nat → PMode → List Char → Option (Json × List Char)
  | 0, _, _ => none
  | Nat.succ fuel, PMode.pv, l =>
    match l with
    | [] => none
    | c :: cs =>
      if c == '\x7b' then parseF fuel PMode.pobjStart (skipJWs cs)
      else if c == '[' then parseF fuel PMode.parrStart (skipJWs cs)
      else if c == '"' then
        match parseStr cs with
        | some (s, rest) => some (Json.str s, rest)
        | none => none
      else if c == 't' then
        match cs with
        | 'r' :: 'u' :: 'e' :: rest => some (Json.bool true, rest)
        | _ => none
      else if c == 'f' then
        match cs with
        | 'a' :: 'l' :: 's' :: 'e' :: rest => some (Json.bool false, rest)
        | _ => none
      else if c == 'n' then
        match cs with
        | 'u' :: 'l' :: 'l' :: rest => some (Json.null, rest)
        | _ => none
      else if c == '-' || c.isDigit then parseNum l
      else none
  | Nat.succ fuel, PMode.pobjStart, l =>
    match l with
    | '\x7d' :: rest => some (Json.obj [], rest)
    | _ => parseF fuel (PMode.pmem []) l
  | Nat.succ fuel, PMode.pmem acc, l =>
    match l with
    | '"' :: cs =>
      match parseStr cs with
      | some (k, rest1) =>
        match skipJWs rest1 with
        | ':' :: rest2 =>
          match parseF fuel PMode.pv (skipJWs rest2) with
          | some (v, rest3) =>
            match skipJWs rest3 with
            | ',' :: rest4 => parseF fuel (PMode.pmem (dictInsert acc k v)) (skipJWs rest4)
            | '\x7d' :: rest4 => some (Json.obj (dictInsert acc k v), rest4)
            | _ => none
          | none => none
        | _ => none
      | none => none
    | _ => none
  | Nat.succ fuel, PMode.parrStart, l =>
    match l with
    | ']' :: rest => some (Json.arr [], rest)
    | _ => parseF fuel (PMode.pelem []) l
  | Nat.succ fuel, PMode.pelem acc, l =>
    match parseF fuel PMode.pv l with
    | some (v, rest) =>
      match skipJWs rest with
      | ',' :: rest2 => parseF fuel (PMode.pelem (acc ++ [v])) (skipJWs rest2)
      | ']' :: rest2 => some (Json.arr (acc ++ [v]), rest2)
      | _ => none
    | none => none

/-- Model of Python's `json.loads`: skip leading whitespace, scan one value,
require only whitespace to remain.  A raised `JSONDecodeError` is modelled as
`none`. -/
def json_loads (s : String) : Option Json :=
  match parseF (s.toList.length + 1) PMode.pv (skipJWs s.toList) with
  | some (v, rest) => if (skipJWs rest).isEmpty then some v else none
  | none => none

/-- Characters matched by `\s` in a Python `re` pattern over `str`
(ASCII whitespace plus the Unicode whitespace code points). -/
def isPySpace (c : Char) : Bool :=
  let n := c.toNat
  n == 32 || (9 <= n && n <= 13) || (28 <= n && n <= 31) || n == 133 || n == 160
    || n == 5760 || (8192 <= n && n <= 8202) || n == 8232 || n == 8233
    || n == 8239 || n == 8287 || n == 12288

/-- Truncate a character list at its last closing brace (inclusive); empty if
there is none.  This is what the greedy group `(\{.*\})` keeps after the
opening brace, under `re.DOTALL`. -/
def takeToLastRBrace (l : List Char) : List Char :=
  (l.reverse.dropWhile (fun c => !(c == '\x7d'))).reverse

/-- One anchored attempt of Python's `re.search(r'data:\s*(\{.*\})', text,
re.DOTALL)` at the head of `l`: the literal `data:`, maximal `\s*` (no
backtracking can help, since `\s` never matches a brace), an opening brace,
and then the greedy group running to the last closing brace of the rest.
Returns the captured group on success. -/
def tryDataAt (l : List Char) : Option (List Char) :=
  if l.take 5 = ['d', 'a', 't', 'a', ':'] then
    match (l.drop 5).dropWhile isPySpace with
    | '\x7b' :: tail =>
      let g := takeToLastRBrace tail
      if g.isEmpty then none else some ('\x7b' :: g)
    | _ => none
  else none

/-- `re.search` semantics: try the anchored match at every position, left to
right, returning the first captured group. -/
def searchData : List Char → Option (List Char)
  | [] => none
  | c :: cs =>
    match tryDataAt (c :: cs) with
    | some g => some g
    | none => searchData cs

/-- Model of `parse_sse_response` (main.py lines 54-72): if the SSE `data:`
pattern matches, JSON-parse the captured group (an exception there is caught
and becomes `None` — there is no second fallback attempt); otherwise JSON-parse
the whole body.  Total by construction, mirroring the blanket
`except Exception` that makes the Python function never raise. -/
def parse_sse_response (text : String) : Option Json :=
  match searchData text.toList with
  | some g => json_loads (String.mk g)
  | none => json_loads text

/-- The one candidate string that `parse_sse_response` hands to `json.loads`:
the captured SSE group if the pattern matches, the whole body otherwise. -/
def extractCandidate (text : String) : String :=
  match searchData text.toList with
  | some g => String.mk g
  | none => text

/-- Python truthiness of a parsed JSON value (`if not data:`):
None, False, zero, empty string, empty list and empty dict are falsy. -/
def pyFalsy : Json → Bool
  | Json.null => true
  | Json.bool b => !b
  | Json.num m _ => m == 0
  | Json.str s => s == ""
  | Json.arr xs => xs.isEmpty
  | Json.obj fs => fs.isEmpty

/-- Look a key up in a dict association list. -/
def jlookup (fields : List (String × Json)) (k : String) : Option Json :=
  match fields with
  | [] => none
  | (k2, v) :: rest => if k2 == k then some v else jlookup rest k

/-- Whether a value is a dict containing the given key. -/
def hasKey (j : Json) (k : String) : Bool :=
  match j with
  | Json.obj fs => (jlookup fs k).isSome
  | _ => false

/-- The value stored under a key, when the value is a dict holding it. -/
def getKey (j : Json) (k : String) : Option Json :=
  match j with
  | Json.obj fs => jlookup fs k
  | _ => none

/-- Substring check on character lists (Python `needle in haystack` on str). -/
def listContainsSub (needle : List Char) : List Char → Bool
  | [] => needle.isEmpty
  | c :: cs => (needle = (c :: cs).take needle.length) || listContainsSub needle cs

/-- Name Python's `type(...)` would report for a parsed JSON value.  A number
with zero stored exponent is reported as `int`; this conflates a float such as
`1e0` with an int, which no claim can observe. -/
def pyTypeName : Json → String
  | Json.null => "NoneType"
  | Json.bool _ => "bool"
  | Json.num _ e => if e == 0 then "int" else "float"
  | Json.str _ => "str"
  | Json.arr _ => "list"
  | Json.obj _ => "dict"

/-- Outcome of one outbound HTTP POST to the child's MCP endpoint. -/
structure HttpResponse where
  status : Nat
  body : String
  sessionHeader : Option String

/-- An outbound request either completes with a response, raises
`httpx.TimeoutException`, or raises some other exception. -/
inductive HttpOutcome where
  | ok (r : HttpResponse) : HttpOutcome
  | timeout : HttpOutcome
  | exn (msg : String) : HttpOutcome

/-- Handle to the spawned `notebooklm-mcp` child: its pid and the exit code
that `poll()` would report (`none` while it is still running). -/
structure ProcHandle where
  pid : Nat
  exitCode : Option Int

/-- The sidecar's global mutable state: `notebooklm_process` and
`mcp_session_id` (main.py lines 27-29). -/
structure SidecarState where
  notebooklm_process : Option ProcHandle
  mcp_session_id : Option String

/-- The initial global state: no child process, no session. -/
def initialState : SidecarState :=
  { notebooklm_process := none, mcp_session_id := none }

/-- The guard `notebooklm_process and notebooklm_process.poll() is None`
used at main.py lines 274 and 379 (a `Popen` object is always truthy). -/
def is_running (s : SidecarState) : Bool :=
  match s.notebooklm_process with
  | some p => p.exitCode.isNone
  | none => false

/-- Process environment as far as the bridge reads it:
the raw value of `ENABLE_NOTEBOOKLM_MCP` (`none` when unset).  The other
environment variables (config path, notebook id, credentials, port) do not
influence any claim-relevant behavior. -/
structure Env where
  enableFlag : Option String

/-- ASCII lowering, modelling `str.lower()` on the flag values that occur. -/
def asciiLower (s : String) : String :=
  String.mk (s.toList.map (fun c =>
    if 'A' ≤ c && c ≤ 'Z' then Char.ofNat (c.toNat + 32) else c))

/-- `os.getenv("ENABLE_NOTEBOOKLM_MCP", "false").lower() == "true"`. -/
def mcpEnabled (env : Env) : Bool :=
  asciiLower (env.enableFlag.getD ("false")) == "true"

/-- Model of `initialize_mcp_session` (main.py lines 78-126): POST the
JSON-RPC `initialize` request; on HTTP 200 read the `mcp-session-id` header
and, when it is present and non-empty (Python: `if session_id:`), store it in
the global and return it.  On a missing header, a non-200 status, a timeout or
any other exception the global is left untouched and `None` is returned.  The
best-effort parse of the body on the success path only feeds a log line and is
not modelled. -/
def init_mcp_session (s : SidecarState) (out : HttpOutcome) :
    SidecarState × Option String :=
  match out with
  | HttpOutcome.ok r =>
    if r.status == 200 then
      match r.sessionHeader with
      | some sid =>
        if sid == "" then (s, none)
        else ({ s with mcp_session_id := some sid }, some sid)
      | none => (s, none)
    else (s, none)
  | HttpOutcome.timeout => (s, none)
  | HttpOutcome.exn _ => (s, none)

/-- One outbound request of the tool bridge, for tracing which network calls
a handler attempted. -/
inductive NetReq where
  | initReq : NetReq
  | toolsCall (name : String) (arguments : Json) : NetReq

/-- Result dict at main.py line 413. -/
def parseFailDict : Json :=
  Json.obj [("success", Json.bool false),
            ("error", Json.str ("Failed to parse MCP response"))]

/-- Result dict at main.py line 415 (JSON-RPC level error passed through). -/
def rpcErrorDict (e : Json) : Json :=
  Json.obj [("success", Json.bool false), ("error", e)]

/-- Result dict at main.py lines 416-420. -/
def successDict (tool : String) (res : Json) : Json :=
  Json.obj [("success", Json.bool true), ("tool", Json.str tool), ("result", res)]

/-- Result dict at main.py lines 425-429 (non-200 HTTP status). -/
def non200Dict (status : Nat) (body : String) : Json :=
  Json.obj [("success", Json.bool false),
            ("error", Json.str ("MCP server returned " ++ toString status)),
            ("details", Json.str (if body == "" then "No response body"
                                  else String.mk (body.toList.take 500)))]

/-- Result dict at main.py line 431 (`httpx.TimeoutException`). -/
def timeoutDict : Json :=
  Json.obj [("success", Json.bool false), ("error", Json.str ("MCP call timed out"))]

/-- Result dict at main.py line 433 (any other exception, message attached). -/
def callFailedDict (msg : String) : Json :=
  Json.obj [("success", Json.bool false),
            ("error", Json.str ("MCP call failed: " ++ msg))]

/-- Result dict at main.py lines 437-441 (feature flag disabled). -/
def notEnabledDict : Json :=
  Json.obj [("success", Json.bool false),
            ("error", Json.str ("NotebookLM MCP is not enabled. Set ENABLE_NOTEBOOKLM_MCP=true and provide NOTEBOOKLM_NOTEBOOK_ID.")),
            ("hint", Json.str ("Run: notebooklm-mcp init https://notebooklm.google.com/notebook/YOUR_ID"))]

/-- Result dict at main.py lines 443-447 (enabled but child not running). -/
def notRunningDict (tool : String) : Json :=
  Json.obj [("success", Json.bool false),
            ("error", Json.str ("NotebookLM MCP server is not running")),
            ("tool", Json.str tool)]

/-- Model of the HTTP-200 arm of `call_mcp_tool` (main.py lines 409-420),
including the dynamic-typing failure modes that the blanket
`except Exception` at line 432 converts into `MCP call failed` payloads:
`"error" in data` raises `TypeError` on a number or bool, `data["error"]`
raises on a list or str, and `data.get(...)` raises `AttributeError` when
`data` or `data["result"]` is not a dict. -/
def handle200 (toolName : String) (body : String) : Json :=
  match parse_sse_response body with
  | none => parseFailDict
  | some data =>
    if pyFalsy data then parseFailDict
    else
      match data with
      | Json.obj fields =>
        match jlookup fields ("error") with
        | some e => rpcErrorDict e
        | none =>
          match jlookup fields ("result") with
          | none => successDict toolName Json.null
          | some (Json.obj rf) =>
            successDict toolName ((jlookup rf ("content")).getD (Json.obj rf))
          | some other =>
            callFailedDict ("'" ++ pyTypeName other ++ "' object has no attribute 'get'")
      | Json.arr xs =>
        if xs.any (fun x => match x with | Json.str s => s == "error" | _ => false)
        then callFailedDict ("list indices must be integers or slices, not str")
        else callFailedDict ("'list' object has no attribute 'get'")
      | Json.str s =>
        if listContainsSub ("error").toList s.toList
        then callFailedDict ("string indices must be integers, not 'str'")
        else callFailedDict ("'str' object has no attribute 'get'")
      | other =>
        callFailedDict ("argument of type '" ++ pyTypeName other ++ "' is not iterable")

/-- Model of `call_mcp_tool` (main.py lines 373-447).  If the child is
running: when the session id is missing, first attempt one re-initialization
(`initOut` is that request's outcome; its exceptions are all swallowed inside
`init_mcp_session`), then POST `tools/call` (`callOut` its outcome) and map
the outcome exactly as the source does.  If the child is not running, no
request is attempted and the flag decides between the two failure payloads.
Returns (new global state, attempted requests, returned payload). -/
def call_mcp_tool (env : Env) (s : SidecarState) (initOut : HttpOutcome)
    (callOut : HttpOutcome) (toolName : String) (arguments : Json) :
    SidecarState × List NetReq × Json :=
  if is_running s then
    let s1 :=
      match s.mcp_session_id with
      | some _ => s
      | none => (init_mcp_session s initOut).1
    let initTrace : List NetReq :=
      match s.mcp_session_id with
      | some _ => []
      | none => [NetReq.initReq]
    let reqs := initTrace ++ [NetReq.toolsCall toolName arguments]
    match callOut with
    | HttpOutcome.ok r =>
      if r.status == 200 then (s1, reqs, handle200 toolName r.body)
      else (s1, reqs, non200Dict r.status r.body)
    | HttpOutcome.timeout => (s1, reqs, timeoutDict)
    | HttpOutcome.exn m => (s1, reqs, callFailedDict m)
  else if !mcpEnabled env then (s, [], notEnabledDict)
  else (s, [], notRunningDict toolName)

/-- `McpToolInfo` pydantic model (main.py lines 226-229). -/
structure McpToolInfo where
  name : String
  description : String
  inputSchema : Json

/-- `McpToolInfo(**t)` validation: `t` must be a dict with string `name` and
`description`; `inputSchema` must be a dict when present and defaults to the
empty dict; extra keys are ignored; anything else raises (and the caller's
`except` then falls back). -/
def toolInfoOfJson : Json → Option McpToolInfo
  | Json.obj fs =>
    match jlookup fs ("name"), jlookup fs ("description") with
    | some (Json.str n), some (Json.str d) =>
      match jlookup fs ("inputSchema") with
      | some (Json.obj sfs) => some { name := n, description := d, inputSchema := Json.obj sfs }
      | some _ => none
      | none => some { name := n, description := d, inputSchema := Json.obj [] }
    | _, _ => none
  | _ => none

/-- Convert every element of a tools list; any failure aborts the whole
comprehension (the exception reaches the caller's `except`). -/
def toolInfosOfJson : List Json → Option (List McpToolInfo)
  | [] => some []
  | t :: ts =>
    match toolInfoOfJson t, toolInfosOfJson ts with
    | some i, some is => some (i :: is)
    | _, _ => none

/-- The well-formed-catalog check of `list_mcp_tools` (main.py lines 297-299):
`if data and "result" in data and "tools" in data["result"]` followed by the
`McpToolInfo` comprehension.  Every dynamic-typing failure (truthy non-dict
shapes, a non-list `tools`, malformed entries) either makes the condition
false or raises into the surrounding `except`; both roads lead to the
fallback, so they are all modelled as `none`. -/
def liveTools (data : Json) : Option (List McpToolInfo) :=
  if pyFalsy data then none
  else
    match data with
    | Json.obj fs =>
      match jlookup fs ("result") with
      | some (Json.obj rfs) =>
        match jlookup rfs ("tools") with
        | some (Json.arr ts) => toolInfosOfJson ts
        | _ => none
      | _ => none
    | _ => none

/-- The hardcoded fallback catalog of `list_mcp_tools`
(main.py lines 304-371), transcribed in source order. -/
def fallback_tools : List McpToolInfo :=
  [{ name := "healthcheck",
     description := "Check server health status",
     inputSchema := Json.obj [] },
   { name := "chat_with_notebook",
     description := "Send a message to NotebookLM and get a grounded response",
     inputSchema := Json.obj
       [("type", Json.str ("object")),
        ("properties", Json.obj
          [("message", Json.obj [("type", Json.str ("string")),
                                 ("description", Json.str ("The message to send"))]),
           ("notebook_id", Json.obj [("type", Json.str ("string")),
                                     ("description", Json.str ("Optional notebook ID"))])]),
        ("required", Json.arr [Json.str ("message")])] },
   { name := "send_chat_message",
     description := "Send a chat message without waiting for response",
     inputSchema := Json.obj
       [("type", Json.str ("object")),
        ("properties", Json.obj
          [("message", Json.obj [("type", Json.str ("string"))]),
           ("wait_for_response", Json.obj [("type", Json.str ("boolean")),
                                           ("default", Json.bool false)])]),
        ("required", Json.arr [Json.str ("message")])] },
   { name := "get_chat_response",
     description := "Get the response from NotebookLM",
     inputSchema := Json.obj
       [("type", Json.str ("object")),
        ("properties", Json.obj
          [("timeout", Json.obj [("type", Json.str ("integer")),
                                 ("default", Json.num 30 0)])])] },
   { name := "navigate_to_notebook",
     description := "Navigate to a specific notebook",
     inputSchema := Json.obj
       [("type", Json.str ("object")),
        ("properties", Json.obj
          [("notebook_id", Json.obj [("type", Json.str ("string"))])]),
        ("required", Json.arr [Json.str ("notebook_id")])] },
   { name := "get_default_notebook",
     description := "Get the currently active notebook",
     inputSchema := Json.obj [] },
   { name := "set_default_notebook",
     description := "Set the default notebook",
     inputSchema := Json.obj
       [("type", Json.str ("object")),
        ("properties", Json.obj
          [("notebook_id", Json.obj [("type", Json.str ("string"))])]),
        ("required", Json.arr [Json.str ("notebook_id")])] }]

/-- Model of `list_mcp_tools` (main.py lines 267-371): when the child is
running, POST `tools/list`; on HTTP 200 with a parseable body holding a
well-formed tool catalog return that catalog, and in every other situation
(child not running, non-200, exception, parse miss, malformed catalog) return
the fixed fallback catalog. -/
def list_mcp_tools (s : SidecarState) (out : HttpOutcome) : List McpToolInfo :=
  if is_running s then
    match out with
    | HttpOutcome.ok r =>
      if r.status == 200 then
        match parse_sse_response r.body with
        | some data =>
          match liveTools data with
          | some ts => ts
          | none => fallback_tools
        | none => fallback_tools
      else fallback_tools
    | _ => fallback_tools
  else fallback_tools

/-- Model of `start_notebooklm_mcp_server` (main.py lines 128-166) at the
level of the global state: on a successful spawn the global is overwritten
with the new handle; when `Popen` raises, the exception is caught and the
global keeps its previous value.  The config-file side effect (lines 135-147)
touches no claim-relevant state. -/
def start_server (s : SidecarState) (spawnOk : Bool) (newPid : Nat) : SidecarState :=
  if spawnOk then { s with notebooklm_process := some { pid := newPid, exitCode := none } }
  else s

/-- Model of `stop_notebooklm_mcp_server` (main.py lines 168-175): when a
handle is stored, terminate, wait and clear it; a no-op otherwise. -/
def stop_server (s : SidecarState) : SidecarState :=
  match s.notebooklm_process with
  | some _ => { s with notebooklm_process := none }
  | none => s

/-- The operations the facade program can perform on the global state:
lifespan startup (which starts the child and initializes the session only when
the flag is enabled, main.py lines 194-200), lifespan shutdown, the two MCP
bridge endpoints, and an asynchronous exit of the child process. -/
inductive ProgOp where
  | startup (spawnOk : Bool) (newPid : Nat) (initOut : HttpOutcome) : ProgOp
  | shutdown : ProgOp
  | mcpCall (initOut : HttpOutcome) (callOut : HttpOutcome)
      (tool : String) (args : Json) : ProgOp
  | mcpList (out : HttpOutcome) : ProgOp
  | childDies (code : Int) : ProgOp

/-- One step of the facade program. -/
def progStep (env : Env) (s : SidecarState) : ProgOp → SidecarState
  | ProgOp.startup ok pid initOut =>
    if mcpEnabled env then (init_mcp_session (start_server s ok pid) initOut).1
    else s
  | ProgOp.shutdown => stop_server s
  | ProgOp.mcpCall io co t a => (call_mcp_tool env s io co t a).1
  | ProgOp.mcpList _ => s
  | ProgOp.childDies c =>
    match s.notebooklm_process with
    | some p => { s with notebooklm_process := some { p with exitCode := some c } }
    | none => s

/-- Run a sequence of facade operations from a state. -/
def progRun (env : Env) (s : SidecarState) : List ProgOp → SidecarState
  | [] => s
  | op :: ops => progRun env (progStep env s op) ops

/-- Supervisor-level state for the process-count invariant: one liveness flag
per child ever spawned (indexed by spawn order), plus the two global slots. -/
structure SupState where
  spawned : List Bool
  handle : Option Nat
  session : Option String

/-- The empty supervisor state. -/
def supInit : SupState :=
  { spawned := [], handle := none, session := none }

/-- Raw supervisor and session operations, directly invokable as in the claim
(`start()` may be called while a child is already running). -/
inductive SupOp where
  | start (spawnOk : Bool) : SupOp
  | stop : SupOp
  | initSession (out : HttpOutcome) : SupOp

/-- Liveness of the child at index `i`. -/
def getB (l : List Bool) (i : Nat) : Bool :=
  l.getD i false

/-- Set index `i` of a liveness list to false (process terminated). -/
def clearAt : List Bool → Nat → List Bool
  | [], _ => []
  | _ :: rest, 0 => false :: rest
  | b :: rest, Nat.succ i => b :: clearAt rest i

/-- `start()` at supervisor level: a successful spawn creates a new live
child and overwrites the handle slot with it; the previously referenced child
(if any) keeps running.  A failed spawn changes nothing. -/
def supStart (s : SupState) (ok : Bool) : SupState :=
  if ok then { s with spawned := s.spawned ++ [true], handle := some s.spawned.length }
  else s

/-- `stop()` at supervisor level: when a handle is stored, terminate that
child (it stops running) and clear the handle; a no-op otherwise. -/
def supStop (s : SupState) : SupState :=
  match s.handle with
  | some pid => { s with spawned := clearAt s.spawned pid, handle := none }
  | none => s

/-- One supervisor/session operation. -/
def supStep (s : SupState) : SupOp → SupState
  | SupOp.start ok => supStart s ok
  | SupOp.stop => supStop s
  | SupOp.initSession out =>
    match out with
    | HttpOutcome.ok r =>
      if r.status == 200 then
        match r.sessionHeader with
        | some sid => if sid == "" then s else { s with session := some sid }
        | none => s
      else s
    | _ => s

/-- Run a sequence of supervisor operations. -/
def supRun (s : SupState) : List SupOp → SupState
  | [] => s
  | op :: ops => supRun (supStep s op) ops

/-- Number of child processes currently alive. -/
def liveChildren (s : SupState) : Nat :=
  (s.spawned.filter (fun b => b)).length

/-- The `is_running()` check at supervisor level: a handle is stored and the
child it references has not exited. -/
def supIsRunning (s : SupState) : Bool :=
  match s.handle with
  | some pid => getB s.spawned pid
  | none => false

/-- Whether a run never calls `start()` while a child is already running. -/
def safeOps (s : SupState) : List SupOp → Bool
  | [] => true
  | op :: ops =>
    (match op with
     | SupOp.start _ => !supIsRunning s
     | _ => true) && safeOps (supStep s op) ops

/-- The error path of `init_mcp_session`: a non-200 status, a timeout, or any
other transport exception. -/
def initErr (out : HttpOutcome) : Bool :=
  match out with
  | HttpOutcome.ok r => !(r.status == 200)
  | HttpOutcome.timeout => true
  | HttpOutcome.exn _ => true

/-- Supervisor invariant: every child that is still alive is the one the
handle slot references. -/
def SupInv (s : SupState) : Prop :=
  ∀ i, getB s.spawned i = true → s.handle = some i

/-- Shape of a `call_mcp_tool` payload: a dict with a boolean `success` key;
`error` present on failure, `tool` and `result` present on success. -/
def WellShaped (j : Json) : Prop :=
  ∃ b : Bool, getKey j ("success") = some (Json.bool b)
    ∧ (b = false → hasKey j ("error") = true)
    ∧ (b = true → hasKey j ("tool") = true ∧ hasKey j ("result") = true)

/-! ## Helper lemmas -/

/-- `dropWhile` skips a whole prefix whose elements all satisfy the test. -/
theorem dropWhile_append_all {α : Type} {p : α → Bool} :
    ∀ {l1 l2 : List α}, (∀ c ∈ l1, p c = true) →
      (l1 ++ l2).dropWhile p = l2.dropWhile p := by
  intro l1
  induction l1 with
  | nil => intro l2 _; rfl
  | cons c cs ih =>
    intro l2 h
    have hc : p c = true := h c (List.mem_cons_self c cs)
    simp only [List.cons_append, List.dropWhile_cons, hc, if_true]
    exact ih (fun x hx => h x (List.mem_cons_of_mem c hx))

/-! ## C1: the fallback catalog returned when no child is running -/

/-- C1 counterexample: the hardcoded fallback catalog returned by
`list_tools()` with no child running has seven entries, not six as the claim
states. -/
theorem listTools_fallback_not_six :
    (list_mcp_tools initialState HttpOutcome.timeout).length = 7
      ∧ (list_mcp_tools initialState HttpOutcome.timeout).length ≠ 6 := by
  exact ⟨rfl, by decide⟩

/-- C1 (amended): in every state in which the child process is not running,
`list_tools()` returns exactly the fixed seven-entry fallback catalog
`fallback_tools`, in its fixed source order, whatever the network would have
answered. -/
theorem listTools_not_running_fallback (s : SidecarState) (out : HttpOutcome)
    (h : is_running s = false) :
    list_mcp_tools s out = fallback_tools := by
  simp [list_mcp_tools, h]

/-- C1 witness: the amended theorem applied in the initial state. -/
theorem listTools_not_running_fallback_wit :
    list_mcp_tools initialState HttpOutcome.timeout = fallback_tools :=
  listTools_not_running_fallback initialState HttpOutcome.timeout rfl

/-! ## C2: SSE body with a `data:`-framed JSON object -/

/-- C2 counterexample: a body containing `data: \x7b"a":1\x7d` followed by
text that contains a further closing brace makes the greedy group span to that
brace; the captured text is not valid JSON and the parser returns `None`
instead of the claimed object. -/
theorem sse_data_followed_by_brace_fails :
    parse_sse_response ("data: \x7b\"a\":1\x7d \x7d") = none
      ∧ (none : Option Json) ≠ some (Json.obj [("a", Json.num 1 0)]) := by
  exact ⟨rfl, by simp⟩

/-- C2 (amended): a body that begins with `data: \x7b"a":1\x7d` and continues
with text containing no closing brace parses to the object with the single
field `a = 1`. -/
theorem sse_data_prefix_parses (post : String)
    (h : ∀ c ∈ post.toList, c ≠ '\x7d') :
    parse_sse_response ("data: \x7b\"a\":1\x7d" ++ post)
      = some (Json.obj [("a", Json.num 1 0)]) := by
  have hsplit : ("data: \x7b\"a\":1\x7d" ++ post).toList
      = ('d' :: 'a' :: 't' :: 'a' :: ':' :: ' ' :: '\x7b' :: '"' :: 'a' :: '"'
          :: ':' :: '1' :: '\x7d' :: []) ++ post.toList :=
    String.data_append _ _
  have hrev : ∀ c ∈ post.toList.reverse, (!(c == '\x7d')) = true := by
    intro c hc
    have := h c (List.mem_reverse.mp hc)
    simp [this]
  have hlast : takeToLastRBrace ('"' :: 'a' :: '"' :: ':' :: '1' :: '\x7d' :: post.toList)
      = ['"', 'a', '"', ':', '1', '\x7d'] := by
    have hb : ('"' :: 'a' :: '"' :: ':' :: '1' :: '\x7d' :: post.toList)
        = (['"', 'a', '"', ':', '1', '\x7d'] : List Char) ++ post.toList := rfl
    unfold takeToLastRBrace
    rw [hb, List.reverse_append, dropWhile_append_all hrev]
    rfl
  have htry : tryDataAt (('d' :: 'a' :: 't' :: 'a' :: ':' :: ' ' :: '\x7b' :: '"' :: 'a'
      :: '"' :: ':' :: '1' :: '\x7d' :: []) ++ post.toList)
      = some ('\x7b' :: ['"', 'a', '"', ':', '1', '\x7d']) := by
    have h0 : tryDataAt (('d' :: 'a' :: 't' :: 'a' :: ':' :: ' ' :: '\x7b' :: '"' :: 'a'
        :: '"' :: ':' :: '1' :: '\x7d' :: []) ++ post.toList)
        = (if (takeToLastRBrace ('"' :: 'a' :: '"' :: ':' :: '1' :: '\x7d' :: post.toList)).isEmpty
           then none
           else some ('\x7b' :: takeToLastRBrace ('"' :: 'a' :: '"' :: ':' :: '1' :: '\x7d' :: post.toList))) := rfl
    rw [h0, hlast]
    rfl
  have hsearch : searchData (("data: \x7b\"a\":1\x7d" ++ post).toList)
      = some ('\x7b' :: ['"', 'a', '"', ':', '1', '\x7d']) := by
    rw [hsplit]
    have h1 : searchData (('d' :: 'a' :: 't' :: 'a' :: ':' :: ' ' :: '\x7b' :: '"' :: 'a'
        :: '"' :: ':' :: '1' :: '\x7d' :: []) ++ post.toList)
        = (match tryDataAt (('d' :: 'a' :: 't' :: 'a' :: ':' :: ' ' :: '\x7b' :: '"' :: 'a'
            :: '"' :: ':' :: '1' :: '\x7d' :: []) ++ post.toList) with
          | some g => some g
          | none => searchData (('a' :: 't' :: 'a' :: ':' :: ' ' :: '\x7b' :: '"' :: 'a'
              :: '"' :: ':' :: '1' :: '\x7d' :: []) ++ post.toList)) := rfl
    rw [h1, htry]
  unfold parse_sse_response
  rw [hsearch]
  rfl

/-- C2 witness: the amended theorem applied to a concrete suffix without a
closing brace. -/
theorem sse_data_prefix_parses_wit :
    (∀ c ∈ (" and trailing text").toList, c ≠ '\x7d')
      ∧ parse_sse_response ("data: \x7b\"a\":1\x7d" ++ " and trailing text")
          = some (Json.obj [("a", Json.num 1 0)]) :=
  ⟨by decide, sse_data_prefix_parses (" and trailing text") (by decide)⟩

/-! ## C3: bare JSON bodies -/

/-- C3 counterexample: a body that is bare valid JSON and does not start with
`data:` can still contain the SSE pattern inside a string value; the captured
group is then not valid JSON, and the parser returns `None` rather than the
body's JSON value. -/
theorem bare_json_with_inner_data_fails :
    json_loads ("\x7b\"a\": \"data: \x7b\x7d\"\x7d")
        = some (Json.obj [("a", Json.str ("data: \x7b\x7d"))])
      ∧ ("\x7b\"a\": \"data: \x7b\x7d\"\x7d").toList.take 5 ≠ ('d' :: 'a' :: 't' :: 'a' :: ':' :: [])
      ∧ parse_sse_response ("\x7b\"a\": \"data: \x7b\x7d\"\x7d") = none := by
  exact ⟨rfl, by decide, rfl⟩

/-- C3 (amended): a body that is bare valid JSON and on which the SSE
`data:` pattern search finds no match is parsed as that JSON value,
unchanged. -/
theorem bare_json_parses (t : String) (v : Json)
    (hnm : searchData t.toList = none) (hv : json_loads t = some v) :
    parse_sse_response t = some v := by
  unfold parse_sse_response
  rw [hnm]
  exact hv

/-- C3 witness: the amended theorem applied to a concrete bare-JSON body. -/
theorem bare_json_parses_wit :
    searchData ("\x7b\"x\":1\x7d").toList = none
      ∧ parse_sse_response ("\x7b\"x\":1\x7d") = some (Json.obj [("x", Json.num 1 0)]) :=
  ⟨rfl, bare_json_parses ("\x7b\"x\":1\x7d") (Json.obj [("x", Json.num 1 0)]) rfl rfl⟩

/-! ## C4: totality of the SSE parser -/

/-- C4: `parse_sse_response` is a total function (it is a Lean `def`, the
model of the blanket `except Exception`), and on every body whose single
extraction candidate — the captured group when the pattern matches, the whole
body otherwise — fails to parse as JSON, it returns `None`. -/
theorem sse_unparsable_returns_none (t : String)
    (h : json_loads (extractCandidate t) = none) :
    parse_sse_response t = none := by
  unfold parse_sse_response
  unfold extractCandidate at h
  cases hs : searchData t.toList with
  | none => rw [hs] at h; exact h
  | some g => rw [hs] at h; exact h

/-- C4 witness: the theorem applied to a concrete unparsable body. -/
theorem sse_unparsable_returns_none_wit :
    json_loads (extractCandidate ("%%%")) = none ∧ parse_sse_response ("%%%") = none :=
  ⟨rfl, sse_unparsable_returns_none ("%%%") rfl⟩

/-! ## Helper lemmas about the bridge state -/

/-- `init_mcp_session` never touches the process handle. -/
theorem init_preserves_process (s : SidecarState) (out : HttpOutcome) :
    ((init_mcp_session s out).1).notebooklm_process = s.notebooklm_process := by
  cases out with
  | ok r =>
    by_cases h : (r.status == 200) = true
    · cases hh : r.sessionHeader with
      | some sid =>
        by_cases hs : (sid == "") = true <;> simp [init_mcp_session, h, hh, hs]
      | none => simp [init_mcp_session, h, hh]
    · simp [init_mcp_session, h]
  | timeout => rfl
  | exn m => rfl

/-- When the child is not running, `call_mcp_tool` leaves the global state
untouched. -/
theorem call_not_running_state (env : Env) (s : SidecarState) (io co : HttpOutcome)
    (tool : String) (args : Json) (h : is_running s = false) :
    (call_mcp_tool env s io co tool args).1 = s := by
  unfold call_mcp_tool
  rw [h]
  simp only [Bool.false_eq_true, if_false]
  split <;> rfl

/-- A state without a stored process handle is not running. -/
theorem is_running_of_none (s : SidecarState) (h : s.notebooklm_process = none) :
    is_running s = false := by
  simp [is_running, h]

/-- With the feature flag disabled, no facade run ever stores a process
handle: startup skips the child entirely and every other operation preserves
the absent handle. -/
theorem progRun_disabled (env : Env) (h : mcpEnabled env = false) :
    ∀ (ops : List ProgOp) (s : SidecarState), s.notebooklm_process = none →
      (progRun env s ops).notebooklm_process = none := by
  intro ops
  induction ops with
  | nil => intro s hs; exact hs
  | cons op ops ih =>
    intro s hs
    refine ih (progStep env s op) ?_
    cases op with
    | startup ok pid io => simp [progStep, h, hs]
    | shutdown => simp [progStep, stop_server, hs]
    | mcpCall io co t a =>
      have := call_not_running_state env s io co t a (is_running_of_none s hs)
      simp [progStep, this, hs]
    | mcpList o => simpa [progStep] using hs
    | childDies c => simp [progStep, hs]

/-! ## C5: calling a tool with the feature flag disabled -/

/-- C5: in every facade-reachable state under a disabled enablement flag,
`call_tool("x", ...)` attempts no outbound request (the request trace is
empty), leaves the state unchanged, and returns the `success=false` payload
that carries the `hint` message. -/
theorem call_tool_disabled (env : Env) (ops : List ProgOp) (io co : HttpOutcome)
    (args : Json) (hdis : mcpEnabled env = false) :
    call_mcp_tool env (progRun env initialState ops) io co ("x") args
      = (progRun env initialState ops, [], notEnabledDict) := by
  have hp : (progRun env initialState ops).notebooklm_process = none :=
    progRun_disabled env hdis ops initialState rfl
  have hrun : is_running (progRun env initialState ops) = false :=
    is_running_of_none _ hp
  unfold call_mcp_tool
  rw [hrun, hdis]
  rfl

/-- C5 witness: the theorem applied with the flag unset (its default is
`"false"`), in the initial state. -/
theorem call_tool_disabled_wit :
    mcpEnabled { enableFlag := none } = false
      ∧ call_mcp_tool { enableFlag := none } initialState HttpOutcome.timeout
          HttpOutcome.timeout ("x") Json.null = (initialState, [], notEnabledDict) :=
  ⟨rfl, call_tool_disabled { enableFlag := none } [] HttpOutcome.timeout
    HttpOutcome.timeout Json.null rfl⟩

/-! ## C6: timeout of the tools/call request -/

/-- C6: whenever the child is running and the `tools/call` request raises the
timeout (the 60-second `httpx` bound), the returned payload is exactly
`success=false, error="MCP call timed out"` — two keys, no partial result —
independent of the session state and of the init request's outcome. -/
theorem call_tool_timeout (env : Env) (s : SidecarState) (io : HttpOutcome)
    (tool : String) (args : Json) (hrun : is_running s = true) :
    (call_mcp_tool env s io HttpOutcome.timeout tool args).2.2
      = Json.obj [("success", Json.bool false),
                  ("error", Json.str ("MCP call timed out"))] := by
  unfold call_mcp_tool
  rw [hrun]
  cases s.mcp_session_id <;> rfl

/-- C6 witness: the theorem applied in a concrete running state. -/
theorem call_tool_timeout_wit :
    is_running { notebooklm_process := some { pid := 7, exitCode := none },
                 mcp_session_id := some ("sess") } = true
      ∧ (call_mcp_tool { enableFlag := some ("true") }
          { notebooklm_process := some { pid := 7, exitCode := none },
            mcp_session_id := some ("sess") }
          HttpOutcome.timeout HttpOutcome.timeout ("x") Json.null).2.2
        = Json.obj [("success", Json.bool false),
                    ("error", Json.str ("MCP call timed out"))] :=
  ⟨rfl, call_tool_timeout _ _ _ _ _ rfl⟩

/-! ## C7: the session initializer's error path -/

/-- C7: on a non-200 status or any transport exception
`init_mcp_session` does not modify the session state, and the token changes
only on an HTTP 200 response carrying a non-empty session header, in which
case that header value is stored. -/
theorem init_session_error_preserves (s : SidecarState) (out : HttpOutcome) :
    (initErr out = true → (init_mcp_session s out).1 = s)
      ∧ ((init_mcp_session s out).1.mcp_session_id ≠ s.mcp_session_id →
          ∃ r sid, out = HttpOutcome.ok r ∧ r.status = 200
            ∧ r.sessionHeader = some sid ∧ sid ≠ ""
            ∧ (init_mcp_session s out).1.mcp_session_id = some sid) := by
  cases out with
  | timeout => exact ⟨fun _ => rfl, fun hne => absurd rfl hne⟩
  | exn m => exact ⟨fun _ => rfl, fun hne => absurd rfl hne⟩
  | ok r =>
    by_cases h2 : (r.status == 200) = true
    · constructor
      · intro hinit
        exact absurd hinit (by simp [initErr, h2])
      · intro hne
        cases hh : r.sessionHeader with
        | none => exact absurd (by simp [init_mcp_session, h2, hh]) hne
        | some sid =>
          by_cases hsid : (sid == "") = true
          · exact absurd (by simp [init_mcp_session, h2, hh, hsid]) hne
          · refine ⟨r, sid, rfl, by simpa using h2, hh, ?_, ?_⟩
            · intro he
              exact hsid (by simp [he])
            · simp [init_mcp_session, h2, hh, hsid]
    · constructor
      · intro _
        simp [init_mcp_session, h2]
      · intro hne
        exact absurd (by simp [init_mcp_session, h2]) hne

/-- C7 witness: the theorem applied to a concrete 500 response: the state is
unchanged. -/
theorem init_session_error_preserves_wit :
    (init_mcp_session initialState
      (HttpOutcome.ok { status := 500, body := "", sessionHeader := none })).1
      = initialState :=
  (init_session_error_preserves initialState
    (HttpOutcome.ok { status := 500, body := "", sessionHeader := none })).1 rfl

/-! ## C9: a falsy parsed payload is reported as a parse failure -/

/-- C9: when the child is running and answers HTTP 200 with a body whose
SSE-parse result is a falsy value (such as the empty object), `call_tool`
returns the `Failed to parse MCP response` failure payload. -/
theorem call_tool_falsy_parse (env : Env) (s : SidecarState) (io : HttpOutcome)
    (tool : String) (args : Json) (body : String) (v : Json)
    (hrun : is_running s = true) (hp : parse_sse_response body = some v)
    (hf : pyFalsy v = true) :
    (call_mcp_tool env s io
        (HttpOutcome.ok { status := 200, body := body, sessionHeader := none })
        tool args).2.2
      = Json.obj [("success", Json.bool false),
                  ("error", Json.str ("Failed to parse MCP response"))] := by
  unfold call_mcp_tool
  rw [hrun]
  have hh : handle200 tool body
      = Json.obj [("success", Json.bool false),
                  ("error", Json.str ("Failed to parse MCP response"))] := by
    unfold handle200
    rw [hp]
    simp [hf, parseFailDict]
  cases s.mcp_session_id <;> simp only [if_true] <;> rw [show ((200 : Nat) == 200) = true from rfl] <;> simp [hh]

/-- C9 witness: the theorem applied to a 200 response whose body is the empty
object. -/
theorem call_tool_falsy_parse_wit :
    is_running { notebooklm_process := some { pid := 7, exitCode := none },
                 mcp_session_id := some ("sess") } = true
      ∧ parse_sse_response ("\x7b\x7d") = some (Json.obj [])
      ∧ pyFalsy (Json.obj []) = true
      ∧ (call_mcp_tool { enableFlag := some ("true") }
          { notebooklm_process := some { pid := 7, exitCode := none },
            mcp_session_id := some ("sess") }
          HttpOutcome.timeout
          (HttpOutcome.ok { status := 200, body := "\x7b\x7d", sessionHeader := none })
          ("x") Json.null).2.2
        = Json.obj [("success", Json.bool false),
                    ("error", Json.str ("Failed to parse MCP response"))] :=
  ⟨rfl, rfl, rfl, call_tool_falsy_parse _ _ _ _ _ _ _ rfl rfl rfl⟩

/-! ## C10: the shape of every call_tool payload -/

/-- The parse-failure payload is well shaped. -/
theorem wsParseFail : WellShaped parseFailDict :=
  ⟨false, rfl, fun _ => rfl, fun hb => absurd hb (by decide)⟩

/-- The JSON-RPC error payload is well shaped. -/
theorem wsRpcError (e : Json) : WellShaped (rpcErrorDict e) :=
  ⟨false, rfl, fun _ => rfl, fun hb => absurd hb (by decide)⟩

/-- The success payload is well shaped. -/
theorem wsSuccess (tool : String) (res : Json) : WellShaped (successDict tool res) :=
  ⟨true, rfl, fun hb => absurd hb (by decide), fun _ => ⟨rfl, rfl⟩⟩

/-- The non-200 payload is well shaped. -/
theorem wsNon200 (status : Nat) (body : String) : WellShaped (non200Dict status body) :=
  ⟨false, rfl, fun _ => rfl, fun hb => absurd hb (by decide)⟩

/-- The timeout payload is well shaped. -/
theorem wsTimeout : WellShaped timeoutDict :=
  ⟨false, rfl, fun _ => rfl, fun hb => absurd hb (by decide)⟩

/-- The generic exception payload is well shaped. -/
theorem wsCallFailed (msg : String) : WellShaped (callFailedDict msg) :=
  ⟨false, rfl, fun _ => rfl, fun hb => absurd hb (by decide)⟩

/-- The flag-disabled payload is well shaped. -/
theorem wsNotEnabled : WellShaped notEnabledDict :=
  ⟨false, rfl, fun _ => rfl, fun hb => absurd hb (by decide)⟩

/-- The not-running payload is well shaped. -/
theorem wsNotRunning (tool : String) : WellShaped (notRunningDict tool) :=
  ⟨false, rfl, fun _ => rfl, fun hb => absurd hb (by decide)⟩

/-- Every payload produced by the HTTP-200 arm is well shaped. -/
theorem wsHandle200 (tool : String) (body : String) :
    WellShaped (handle200 tool body) := by
  unfold handle200
  split
  · exact wsParseFail
  · split
    · exact wsParseFail
    · split
      · split
        · exact wsRpcError _
        · split
          · exact wsSuccess _ _
          · exact wsSuccess _ _
          · exact wsCallFailed _
      · split
        · exact wsCallFailed _
        · exact wsCallFailed _
      · split
        · exact wsCallFailed _
        · exact wsCallFailed _
      · exact wsCallFailed _

/-- C10: every value returned by `call_tool`, on every path, is a dict with a
boolean `success` key; on failure an `error` key is present, on success both
`tool` and `result` are present. -/
theorem call_tool_payload_shape (env : Env) (s : SidecarState) (io co : HttpOutcome)
    (tool : String) (args : Json) :
    WellShaped ((call_mcp_tool env s io co tool args).2.2) := by
  unfold call_mcp_tool
  by_cases hrun : is_running s = true
  · rw [hrun]
    cases co with
    | ok r =>
      by_cases h2 : (r.status == 200) = true
      · cases s.mcp_session_id <;> simp only [if_true, h2] <;> exact wsHandle200 _ _
      · cases s.mcp_session_id <;> simp only [if_true, h2, Bool.false_eq_true, if_false] <;>
          exact wsNon200 _ _
    | timeout => cases s.mcp_session_id <;> exact wsTimeout
    | exn m => cases s.mcp_session_id <;> exact wsCallFailed _
  · rw [Bool.not_eq_true] at hrun
    rw [hrun]
    by_cases hen : mcpEnabled env = true
    · simp only [hen, Bool.not_true, Bool.false_eq_true, if_false]
      exact wsNotRunning _
    · rw [Bool.not_eq_true] at hen
      simp only [hen, Bool.not_false, if_true]
      exact wsNotEnabled

/-! ## C8: how many children can be alive -/

/-- An empty liveness list has no live entry. -/
theorem getB_nil (i : Nat) : getB [] i = false := by
  cases i <;> rfl

/-- Liveness lookup below the length of a prefix ignores the suffix. -/
theorem getB_append_lt (l1 l2 : List Bool) (i : Nat) (h : i < l1.length) :
    getB (l1 ++ l2) i = getB l1 i :=
  List.getD_append l1 l2 false i h

/-- Liveness lookup beyond the end of the list is false. -/
theorem getB_ge (l : List Bool) (i : Nat) (h : l.length ≤ i) : getB l i = false :=
  List.getD_eq_default l false h

/-- Clearing an index makes it dead. -/
theorem clearAt_getB_self (l : List Bool) (p : Nat) : getB (clearAt l p) p = false := by
  induction l generalizing p with
  | nil => cases p <;> rfl
  | cons b rest ih =>
    cases p with
    | zero => rfl
    | succ q => exact ih q

/-- Clearing an index leaves the other indices alone. -/
theorem clearAt_getB_ne (l : List Bool) (p i : Nat) (h : i ≠ p) :
    getB (clearAt l p) i = getB l i := by
  induction l generalizing p i with
  | nil => cases p <;> rfl
  | cons b rest ih =>
    cases p with
    | zero =>
      cases i with
      | zero => exact absurd rfl h
      | succ j => rfl
    | succ q =>
      cases i with
      | zero => rfl
      | succ j => exact ih q j (fun hh => h (by rw [hh]))

/-- A liveness list with no live entry has no live child. -/
theorem filterTrue_len_zero :
    ∀ (l : List Bool), (∀ i, getB l i = false) → (l.filter (fun b => b)).length = 0 := by
  intro l
  induction l with
  | nil => intro _; rfl
  | cons b rest ih =>
    intro h
    have hb : b = false := h 0
    rw [List.filter_cons, hb]
    exact ih (fun i => h (i + 1))

/-- A liveness list whose live entries all sit at one index has at most one
live child. -/
theorem filterTrue_len_le_one :
    ∀ (l : List Bool) (pid : Nat), (∀ i, getB l i = true → i = pid) →
      (l.filter (fun b => b)).length ≤ 1 := by
  intro l
  induction l with
  | nil => intro pid _; simp
  | cons b rest ih =>
    intro pid h
    cases hb : b with
    | false =>
      rw [List.filter_cons, if_neg Bool.false_ne_true]
      cases pid with
      | zero =>
        have hz : ∀ i, getB rest i = false := by
          intro i
          cases hg : getB rest i with
          | false => rfl
          | true => exact absurd (h (i + 1) hg) (by omega)
        rw [filterTrue_len_zero rest hz]
        omega
      | succ q =>
        exact ih q (fun i hg => by
          have := h (i + 1) hg
          omega)
    | true =>
      have h0 : (0 : Nat) = pid := h 0 (by rw [hb]; rfl)
      have hz : ∀ i, getB rest i = false := by
        intro i
        cases hg : getB rest i with
        | false => rfl
        | true =>
          have := h (i + 1) hg
          omega
      rw [List.filter_cons, if_pos rfl, List.length_cons, filterTrue_len_zero rest hz]

/-- `initSession` steps touch neither the liveness list nor the handle. -/
theorem supStep_initSession_frame (s : SupState) (out : HttpOutcome) :
    (supStep s (SupOp.initSession out)).spawned = s.spawned
      ∧ (supStep s (SupOp.initSession out)).handle = s.handle := by
  cases out with
  | ok r =>
    by_cases h2 : (r.status == 200) = true
    · cases hsh : r.sessionHeader with
      | some sid => by_cases hsid : (sid == "") = true <;> simp [supStep, h2, hsh, hsid]
      | none => simp [supStep, h2, hsh]
    · simp [supStep, h2]
  | timeout => exact ⟨rfl, rfl⟩
  | exn m => exact ⟨rfl, rfl⟩

/-- The supervisor invariant is preserved by any step that does not start a
child while one is running. -/
theorem supInv_step (s : SupState) (op : SupOp) (hInv : SupInv s)
    (hsafe : (match op with
      | SupOp.start _ => !supIsRunning s
      | _ => true) = true) :
    SupInv (supStep s op) := by
  cases op with
  | start ok =>
    have hnr : supIsRunning s = false := by simpa using hsafe
    cases ok with
    | false => simpa [supStep, supStart] using hInv
    | true =>
      intro i hi
      simp only [supStep, supStart, if_true] at hi ⊢
      rcases Nat.lt_trichotomy i s.spawned.length with hlt | heq | hgt
      · exfalso
        have hb : getB s.spawned i = true := by
          rw [← getB_append_lt s.spawned [true] i hlt]
          exact hi
        have hh := hInv i hb
        have hrun : supIsRunning s = true := by simp [supIsRunning, hh, hb]
        rw [hrun] at hnr
        cases hnr
      · rw [heq]
      · exfalso
        have hf : getB (s.spawned ++ [true]) i = false := by
          apply getB_ge
          simp only [List.length_append, List.length_cons, List.length_nil]
          omega
        rw [hf] at hi
        cases hi
  | stop =>
    cases hh : s.handle with
    | none => simpa [supStep, supStop, hh] using hInv
    | some pid =>
      intro i hi
      simp only [supStep, supStop, hh] at hi ⊢
      exfalso
      by_cases hip : i = pid
      · rw [hip, clearAt_getB_self] at hi
        cases hi
      · rw [clearAt_getB_ne _ _ _ hip] at hi
        have hsome := hInv i hi
        rw [hh] at hsome
        injection hsome with h2
        exact hip h2.symm
  | initSession out =>
    intro i hi
    obtain ⟨hsp, hha⟩ := supStep_initSession_frame s out
    rw [hsp] at hi
    rw [hha]
    exact hInv i hi

/-- The supervisor invariant holds after any run without a double start. -/
theorem supInv_run :
    ∀ (ops : List SupOp) (s : SupState), SupInv s → safeOps s ops = true →
      SupInv (supRun s ops) := by
  intro ops
  induction ops with
  | nil => intro s h _; exact h
  | cons op ops ih =>
    intro s h hsafe
    cases op with
    | start ok =>
      have hsafe2 : (!supIsRunning s && safeOps (supStep s (SupOp.start ok)) ops) = true := hsafe
      rw [Bool.and_eq_true] at hsafe2
      exact ih _ (supInv_step s (SupOp.start ok) h hsafe2.1) hsafe2.2
    | stop =>
      have hsafe2 : (true && safeOps (supStep s SupOp.stop) ops) = true := hsafe
      rw [Bool.and_eq_true] at hsafe2
      exact ih _ (supInv_step s SupOp.stop h hsafe2.1) hsafe2.2
    | initSession out =>
      have hsafe2 : (true && safeOps (supStep s (SupOp.initSession out)) ops) = true := hsafe
      rw [Bool.and_eq_true] at hsafe2
      exact ih _ (supInv_step s (SupOp.initSession out) h hsafe2.1) hsafe2.2

/-- The supervisor invariant bounds the number of live children by one. -/
theorem supInv_le_one (s : SupState) (h : SupInv s) : liveChildren s ≤ 1 := by
  cases hh : s.handle with
  | some pid =>
    apply filterTrue_len_le_one s.spawned pid
    intro i hi
    have hsome := h i hi
    rw [hh] at hsome
    injection hsome with h2
    exact h2.symm
  | none =>
    have hz : ∀ i, getB s.spawned i = false := by
      intro i
      cases hg : getB s.spawned i with
      | false => rfl
      | true =>
        have hsome := h i hg
        rw [hh] at hsome
        cases hsome
    show (s.spawned.filter (fun b => b)).length ≤ 1
    rw [filterTrue_len_zero s.spawned hz]
    omega

/-- C8 counterexample: calling `start()` twice in a row from the empty state
(the second call while the first child is still running) leaves two child
processes alive, so the claimed at-most-one invariant fails on a reachable
state. -/
theorem double_start_two_children :
    liveChildren (supRun supInit [SupOp.start true, SupOp.start true]) = 2
      ∧ ¬ liveChildren (supRun supInit [SupOp.start true, SupOp.start true]) ≤ 1 := by
  exact ⟨rfl, by decide⟩

/-- C8 (amended): the global slots hold at most one process handle and one
session token by construction, and in every state reached by a run of
supervisor and session operations in which `start()` is never invoked while a
child is already running, at most one child process is alive.  A `start()`
while a child runs, however, spawns a second live child (the old handle is
merely overwritten), as the counterexample shows. -/
theorem single_child_without_double_start (ops : List SupOp)
    (h : safeOps supInit ops = true) :
    liveChildren (supRun supInit ops) ≤ 1 := by
  have hInv : SupInv supInit := by
    intro i hi
    rw [show supInit.spawned = [] from rfl, getB_nil i] at hi
    cases hi
  exact supInv_le_one _ (supInv_run ops supInit hInv h)

/-- C8 witness: a start-stop-start run satisfies the no-double-start guard
and ends with at most one live child. -/
theorem single_child_without_double_start_wit :
    safeOps supInit [SupOp.start true, SupOp.stop, SupOp.start true] = true
      ∧ liveChildren (supRun supInit [SupOp.start true, SupOp.stop, SupOp.start true]) ≤ 1 :=
  ⟨rfl, single_child_without_double_start _ rfl⟩

end Sidecar
